import Mathlib

/-!
Verification development for the pyuit repository: a shallow embedding of
its authentication/token lifecycle manager, configuration resolver,
tabular-output parser and PBS script builder, with theorems checking the
natural-language specification against the embedded behaviour.

The Python package sources are not part of the analysed tree (only the
README, the Sphinx docs and the example notebooks are), so each component
is modelled from the specification text, corroborated where possible by
the README and the notebooks.
-/

namespace PyUIT

/-! ## Data model -/

/-- Modelled from the spec: a persisted OAuth token record, keyed by the
HPC system identifier (spec section 3, TokenRecord). The missing code is
the uit token persistence module. -/
structure TokenRecord where
  system_id : String
  access_token : String
  refresh_token : String
  expiry_timestamp : Int
  deriving Repr, DecidableEq

/-! ## ConfigResolver -/

/-- Modelled from the spec and README CONFIGURE section: a single
configuration field resolves from the constructor argument, then the
environment variable, then the configuration-file field, in that order.
The missing code is the uit Client constructor's configuration lookup. -/
def resolveField (ctorArg envVar fileField : Option String) : Option String :=
  match ctorArg with
  | some v => some v
  | none =>
    match envVar with
    | some v => some v
    | none => fileField

/-- Modelled from the spec: the three sources available for one
configuration field. -/
structure FieldSources where
  ctorArg : Option String
  envVar : Option String
  fileField : Option String
  deriving Repr, DecidableEq

/-- Modelled from the spec: the per-field sources for the five
configuration fields the Client resolves (client_id, client_secret,
ca_file, node_types_file, and the config_file path). -/
structure ConfigSources where
  client_id : FieldSources
  client_secret : FieldSources
  ca_file : FieldSources
  node_types_file : FieldSources
  config_file : FieldSources
  deriving Repr, DecidableEq

/-- Modelled from the spec: the resolved configuration. -/
structure ResolvedConfig where
  client_id : Option String
  client_secret : Option String
  ca_file : Option String
  node_types_file : Option String
  config_file : Option String
  deriving Repr, DecidableEq

/-- Modelled from the spec: resolution is applied independently per
field. -/
def resolveConfig (s : ConfigSources) : ResolvedConfig where
  client_id := resolveField s.client_id.ctorArg s.client_id.envVar s.client_id.fileField
  client_secret := resolveField s.client_secret.ctorArg s.client_secret.envVar s.client_secret.fileField
  ca_file := resolveField s.ca_file.ctorArg s.ca_file.envVar s.ca_file.fileField
  node_types_file := resolveField s.node_types_file.ctorArg s.node_types_file.envVar s.node_types_file.fileField
  config_file := resolveField s.config_file.ctorArg s.config_file.envVar s.config_file.fileField

/-! ## TokenStore -/

/-- Modelled from the spec: the token store contents, an ordered
collection of token records. -/
def TokenStore := List TokenRecord

/-- Modelled from the spec: load filters the persisted records to the
requested system identifier. -/
def load (sysId : String) (store : TokenStore) : Option TokenRecord :=
  List.find? (fun r => r.system_id = sysId) store

/-- Modelled from the spec: save merges into the persisted store with
replace-by-key semantics keyed on system_id. -/
def save (record : TokenRecord) (store : TokenStore) : TokenStore :=
  record :: List.filter (fun r => r.system_id ≠ record.system_id) store

/-- Modelled from the spec: clear removes the persisted record for one
system identifier; idempotent. -/
def clearTokens (sysId : String) (store : TokenStore) : TokenStore :=
  List.filter (fun r => r.system_id ≠ sysId) store

/-- Records in the store associated with a given system identifier. -/
def recordsFor (sysId : String) (store : TokenStore) : List TokenRecord :=
  List.filter (fun r => r.system_id = sysId) store

theorem filter_eq_of_filter_ne (sid : String) (store : List TokenRecord) :
    List.filter (fun r => r.system_id = sid)
      (List.filter (fun r => r.system_id ≠ sid) store) = [] := by
  induction store with
  | nil => rfl
  | cons r rs ih =>
    by_cases h : r.system_id = sid
    · simp [List.filter_cons, h, ih]
    · simp [List.filter_cons, h, ih]

theorem recordsFor_save_self (record : TokenRecord) (store : TokenStore) :
    recordsFor record.system_id (save record store) = [record] := by
  unfold recordsFor save
  simp [List.filter_cons, filter_eq_of_filter_ne]

theorem load_save_self (record : TokenRecord) (store : TokenStore) :
    load record.system_id (save record store) = some record := by
  unfold load save
  simp [List.find?_cons]

/-! ## AuthSession -/

/-- Modelled from the spec: the observable remote and local side effects
of the authentication flow. -/
inductive AuthEffect where
  | openAuthUrl
  | tokenExchange
  | refreshExchange
  deriving Repr, DecidableEq

/-- Modelled from the spec: a token record is valid when it has not yet
expired at the current time. -/
def validRecord (now : Int) (r : TokenRecord) : Bool :=
  now < r.expiry_timestamp

/-- Modelled from the spec: the refresh safety margin, a short fixed
margin of 60 seconds (spec section 9). -/
def refreshMargin : Int := 60

/-- Modelled from the spec: authenticate returns a cached valid
non-expired record without contacting the remote service; otherwise it
starts the authorization-code flow (open the authorization URL, exchange
the code at the token endpoint) and persists the obtained record.
flowRecord stands for the record the remote exchange would produce. -/
def authenticate (now : Int) (sysId : String) (store : TokenStore)
    (flowRecord : TokenRecord) : TokenRecord × TokenStore × List AuthEffect :=
  match load sysId store with
  | some r =>
    if validRecord now r then (r, store, [])
    else (flowRecord, save flowRecord store, [AuthEffect.openAuthUrl, AuthEffect.tokenExchange])
  | none => (flowRecord, save flowRecord store, [AuthEffect.openAuthUrl, AuthEffect.tokenExchange])

/-- Modelled from the spec: refresh_if_needed compares the current time
to expiry_timestamp; if expired or within the safety margin it performs a
refresh-token exchange and returns the updated record, otherwise it
returns the input unchanged with no remote contact. refreshedRecord
stands for the record the refresh exchange would produce. -/
def refresh_if_needed (now : Int) (r : TokenRecord)
    (refreshedRecord : TokenRecord) : TokenRecord × List AuthEffect :=
  if r.expiry_timestamp ≤ now + refreshMargin then
    (refreshedRecord, [AuthEffect.refreshExchange])
  else
    (r, [])

/-! ## Tabular output parsing -/

/-- Modelled from the spec: the declared type of one column (typed
coercion per column, spec section 4.3). -/
inductive ColType where
  | strCol
  | natCol
  deriving Repr, DecidableEq

/-- Modelled from the spec: one column of a declared record shape. -/
structure ColumnSpec where
  colName : String
  ctype : ColType
  deriving Repr, DecidableEq

/-- Modelled from the spec: a typed scalar cell of a parsed row. -/
inductive CellValue where
  | strVal (s : String)
  | natVal (n : Nat)
  deriving Repr, DecidableEq

/-- Modelled from the spec: a ParsedRow maps column names to typed
scalars, in column order. -/
def ParsedRow := List (String × CellValue)
  deriving Repr, DecidableEq

/-- Split a character list at separator characters, discarding empty
pieces; acc holds the current token reversed. -/
def splitChars (p : Char → Bool) : List Char → List Char → List (List Char)
  | [], acc => if acc.isEmpty then [] else [acc.reverse]
  | c :: cs, acc =>
    if p c then
      if acc.isEmpty then splitChars p cs []
      else acc.reverse :: splitChars p cs []
    else splitChars p cs (c :: acc)

def isSpaceChar (c : Char) : Bool := c = ' ' || c = '\t'

def isNewlineChar (c : Char) : Bool := c = '\n'

/-- The non-empty lines of a raw text, in source order. -/
def lineList (text : String) : List String :=
  (splitChars isNewlineChar text.toList []).map (fun cs => String.mk cs)

/-- The whitespace-separated tokens of one line. -/
def tokensOf (line : String) : List String :=
  (splitChars isSpaceChar line.toList []).map (fun cs => String.mk cs)

def isDigitChar (c : Char) : Bool := 48 ≤ c.toNat && c.toNat ≤ 57

def digitsVal (cs : List Char) : Nat :=
  cs.foldl (fun n c => 10 * n + (c.toNat - 48)) 0

/-- Modelled from the spec: numeric coercion of one token, failing on any
non-numeric token. -/
def tokenToNat (s : String) : Option Nat :=
  if !s.toList.isEmpty && s.toList.all isDigitChar then some (digitsVal s.toList)
  else none

/-- Modelled from the spec: coerce one token to its declared column
type; numeric columns fail closed. -/
def coerceCell (ct : ColType) (tok : String) : Option CellValue :=
  match ct with
  | ColType.strCol => some (CellValue.strVal tok)
  | ColType.natCol => Option.map CellValue.natVal (tokenToNat tok)

/-- Modelled from the spec: coerce the tokens of one line against the
declared columns; any cell failure makes the whole row unparsable. -/
def coerceRow : List ColumnSpec → List String → Option ParsedRow
  | [], [] => some []
  | col :: cols, tok :: toks =>
    match coerceCell col.ctype tok, coerceRow cols toks with
    | some v, some rest => some ((col.colName, v) :: rest)
    | _, _ => none
  | _, _ => none

/-- Modelled from the spec: one line either does not match the expected
column structure (skipped, result none), matches and coerces (ok row), or
matches structurally but fails coercion (flagged as unparsable with the
offending line). -/
def parseLine (cols : List ColumnSpec) (line : String) :
    Option (Except String ParsedRow) :=
  let toks := tokensOf line
  if toks.length = cols.length then
    match coerceRow cols toks with
    | some row => some (Except.ok row)
    | none => some (Except.error line)
  else none

/-- Modelled from the spec: parse raw multi-line text against a declared
record shape; banner lines that do not match the column structure are
skipped, unparsable rows are flagged per-row, and the whole parse never
fails. -/
def parseOutput (cols : List ColumnSpec) (text : String) :
    List (Except String ParsedRow) :=
  (lineList text).filterMap (parseLine cols)

/-- The successfully parsed rows, with flagged rows dropped. -/
def parsedRows (cols : List ColumnSpec) (text : String) : List ParsedRow :=
  (parseOutput cols text).filterMap fun e =>
    match e with
    | Except.ok r => some r
    | Except.error _ => none

/-- Modelled from the spec: the job-status record shape (job id, name,
queue, status code, elapsed), with the elapsed column numeric. -/
def jobStatusColumns : List ColumnSpec :=
  [⟨"job_id", ColType.strCol⟩, ⟨"name", ColType.strCol⟩,
   ⟨"queue", ColType.strCol⟩, ⟨"status", ColType.strCol⟩,
   ⟨"elapsed_sec", ColType.natCol⟩]

/-- A sample header banner line the remote shell emits. -/
def bannerLine : String := "JOBS REPORT BANNER"

/-- A first well-formed job-status line. -/
def goodLine1 : String := "1234.pbs hello debug R 42"

/-- A second well-formed job-status line. -/
def goodLine2 : String := "1235.pbs world standard Q 7"

/-- A malformed job-status line, with a non-numeric token in the numeric
elapsed column. -/
def badLine : String := "1236.pbs bad debug R xx"

/-! ## PbsScript builder -/

/-- Modelled from the spec: a PBS directive as a flag/value pair. -/
structure PbsDirective where
  flag : String
  value : String
  deriving Repr, DecidableEq

/-- Modelled from the spec: a module operation, a tagged variant over
load, unload and swap(old, new). -/
inductive ModuleOperation where
  | load (modName : String)
  | unload (modName : String)
  | swap (oldMod newMod : String)
  deriving Repr, DecidableEq

/-- Modelled from the spec: the PBS script value (spec section 3), with
max_time as a duration in seconds. -/
structure PbsScript where
  name : String
  project_id : String
  num_nodes : Int
  processes_per_node : Int
  node_type : String
  max_time : Int
  queue : String
  directives : List PbsDirective
  module_ops : List ModuleOperation
  execution_block : String
  deriving Repr, DecidableEq

/-- Modelled from the spec: one directive renders as one PBS line. -/
def renderDirective (d : PbsDirective) : String :=
  "#PBS " ++ d.flag ++ " " ++ d.value

/-- Modelled from the spec: each module operation renders as one distinct
shell command of the form appropriate to its variant; swap references
both module names. -/
def renderModuleOp : ModuleOperation → String
  | ModuleOperation.load m => "module load " ++ m
  | ModuleOperation.unload m => "module unload " ++ m
  | ModuleOperation.swap a b => "module swap " ++ a ++ " " ++ b

/-- The fixed header lines derived from the required scalar fields. -/
def headerLines (s : PbsScript) : List String :=
  ["#!/bin/bash",
   "#PBS -N " ++ s.name,
   "#PBS -A " ++ s.project_id,
   "#PBS -q " ++ s.queue,
   "#PBS -l select=" ++ toString s.num_nodes ++ ":ncpus=" ++
     toString s.processes_per_node ++ ":mpiprocs=" ++
     toString s.processes_per_node ++ ":ntype=" ++ s.node_type,
   "#PBS -l walltime=" ++ toString s.max_time]

/-- The directive lines, one per directive, in insertion order. -/
def directiveLines : List PbsDirective → List String
  | [] => []
  | d :: ds => renderDirective d :: directiveLines ds

/-- The module lines, one per module operation, in insertion order. -/
def moduleLines : List ModuleOperation → List String
  | [] => []
  | op :: ops => renderModuleOp op :: moduleLines ops

/-- Join lines with newline separators. -/
def joinLines : List String → String
  | [] => ""
  | [l] => l
  | l :: l2 :: ls => l ++ "\n" ++ joinLines (l2 :: ls)

/-- Modelled from the spec: the full ordered line sequence of a rendered
script: header, then directives in insertion order, then module
operations in insertion order, then the execution block. -/
def renderLines (s : PbsScript) : List String :=
  headerLines s ++ directiveLines s.directives ++ moduleLines s.module_ops ++
    [s.execution_block]

/-- The script text, before validation. -/
def renderText (s : PbsScript) : String :=
  joinLines (renderLines s)

/-- Modelled from the spec: the render-time validation failures. -/
inductive ValidationError where
  | invalidNumNodes
  | invalidProcessesPerNode
  | invalidMaxTime
  deriving Repr, DecidableEq

/-- Modelled from the spec: render validates at render time (num_nodes
and processes_per_node positive, max_time non-negative) and otherwise
produces the deterministic script text. -/
def render (s : PbsScript) : Except ValidationError String :=
  if s.num_nodes ≤ 0 then Except.error ValidationError.invalidNumNodes
  else if s.processes_per_node ≤ 0 then Except.error ValidationError.invalidProcessesPerNode
  else if s.max_time < 0 then Except.error ValidationError.invalidMaxTime
  else Except.ok (renderText s)

/-- Modelled from the spec: field assignment before render is a total
update that never raises. -/
def set_num_nodes (s : PbsScript) (n : Int) : PbsScript :=
  { s with num_nodes := n }

/-- Modelled from the spec: field assignment before render is a total
update that never raises. -/
def set_processes_per_node (s : PbsScript) (n : Int) : PbsScript :=
  { s with processes_per_node := n }

/-- Modelled from the spec: field assignment before render is a total
update that never raises. -/
def set_max_time (s : PbsScript) (t : Int) : PbsScript :=
  { s with max_time := t }

/-- Modelled from the docs example: append an optional directive. -/
def set_directive (s : PbsScript) (flag value : String) : PbsScript :=
  { s with directives := s.directives ++ [⟨flag, value⟩] }

/-- Modelled from the docs example: append a module load operation. -/
def load_module (s : PbsScript) (m : String) : PbsScript :=
  { s with module_ops := s.module_ops ++ [ModuleOperation.load m] }

/-- Modelled from the docs example: append a module unload operation. -/
def unload_module (s : PbsScript) (m : String) : PbsScript :=
  { s with module_ops := s.module_ops ++ [ModuleOperation.unload m] }

/-- Modelled from the docs example: append a module swap operation. -/
def swap_module (s : PbsScript) (a b : String) : PbsScript :=
  { s with module_ops := s.module_ops ++ [ModuleOperation.swap a b] }

/-! ## Token file and redirect URI -/

/-- Modelled from the spec and notebooks: the default token/config file
path in the home directory. -/
def defaultTokenPath : String := "~/.uit"

/-- Modelled from the spec and README: the persisted file path is the
explicit path argument when given, else the environment variable, else
the default. -/
def tokenFilePath (explicitPath envPath : Option String) : String :=
  match explicitPath with
  | some p => p
  | none =>
    match envPath with
    | some p => p
    | none => defaultTokenPath

/-- Modelled from the spec: one token record serializes to a YAML mapping
entry keyed by the system identifier, holding access_token, refresh_token
and expiry. -/
def tokenFileEntry (r : TokenRecord) : String × List (String × String) :=
  (r.system_id,
   [("access_token", r.access_token),
    ("refresh_token", r.refresh_token),
    ("expiry", toString r.expiry_timestamp)])

/-- Modelled from the spec: the persisted token file as a YAML mapping
keyed by system identifier. -/
def tokenFileYaml (store : TokenStore) : List (String × List (String × String)) :=
  List.map tokenFileEntry store

/-- Modelled from the README and the authentication notebook: the local
callback listener port. -/
def callbackPort : Nat := 5000

/-- Modelled from the README and the authentication notebook: the fixed
OAuth return URL registered with the remote service. -/
def redirectUri : String :=
  "http://localhost:" ++ toString callbackPort ++ "/save_token"

/-- Modelled from the spec: the redirect URI the client uses on a given
run; it does not depend on the run. -/
def redirectUriOnRun (_run : Nat) : String := redirectUri

/-- Modelled from the spec: the local port the callback listener binds on
a given run; it does not depend on the run. -/
def listenerBindPort (_run : Nat) : Nat := callbackPort

/-! ## Concrete demonstration values -/

/-- A cached valid token record for the onyx system. -/
def onyxRecord : TokenRecord :=
  { system_id := "onyx", access_token := "acc", refresh_token := "ref",
    expiry_timestamp := 1000 }

/-- A record a fresh authorization-code flow would produce. -/
def freshRecord : TokenRecord :=
  { system_id := "onyx", access_token := "acc2", refresh_token := "ref2",
    expiry_timestamp := 5000 }

/-- The first well-formed job-status row of the sample output. -/
def sampleRow1 : ParsedRow :=
  [("job_id", CellValue.strVal "1234.pbs"), ("name", CellValue.strVal "hello"),
   ("queue", CellValue.strVal "debug"), ("status", CellValue.strVal "R"),
   ("elapsed_sec", CellValue.natVal 42)]

/-- The second well-formed job-status row of the sample output. -/
def sampleRow2 : ParsedRow :=
  [("job_id", CellValue.strVal "1235.pbs"), ("name", CellValue.strVal "world"),
   ("queue", CellValue.strVal "standard"), ("status", CellValue.strVal "Q"),
   ("elapsed_sec", CellValue.natVal 7)]

/-- A base script with valid required fields and no extra declarations,
matching the Getting Started notebook example. -/
def baseScript : PbsScript :=
  { name := "hello_world_with_pyuit", project_id := "SUBPROJ",
    num_nodes := 1, processes_per_node := 1, node_type := "compute",
    max_time := 60, queue := "debug", directives := [], module_ops := [],
    execution_block := "echo Hello World!" }

/-- The docs example chain: load anaconda, then swap IntelMPI for
OpenMPI. -/
def demoScript : PbsScript :=
  swap_module (load_module baseScript "anaconda") "IntelMPI" "OpenMPI"

/-! ## Supporting lemmas -/

theorem mk_data (s : String) : String.mk s.data = s := rfl

theorem splitChars_append_nonsep (p : Char → Bool) (xs : List Char) :
    ∀ ys acc : List Char, (∀ c ∈ xs, p c = false) →
      splitChars p (xs ++ ys) acc = splitChars p ys (xs.reverse ++ acc) := by
  induction xs with
  | nil => intro ys acc h; simp
  | cons c cs ih =>
    intro ys acc h
    have hc : p c = false := h c (List.mem_cons_self c cs)
    have hcs : ∀ x ∈ cs, p x = false := fun x hx => h x (List.mem_cons_of_mem c hx)
    simp only [List.cons_append, splitChars, hc, Bool.false_eq_true, if_false,
      List.append_eq]
    rw [ih ys (c :: acc) hcs]
    simp [List.append_assoc]

theorem splitChars_sep_cons (p : Char → Bool) (c : Char) (rest acc : List Char)
    (hc : p c = true) (hacc : acc ≠ []) :
    splitChars p (c :: rest) acc = acc.reverse :: splitChars p rest [] := by
  cases acc with
  | nil => exact absurd rfl hacc
  | cons a as => simp [splitChars, hc]

theorem splitChars_last (p : Char → Bool) (xs : List Char)
    (hE : xs ≠ []) (hN : ∀ c ∈ xs, p c = false) :
    splitChars p xs [] = [xs] := by
  have h := splitChars_append_nonsep p xs [] [] hN
  simp only [List.append_nil] at h
  rw [h]
  cases hx : xs.reverse with
  | nil => exact absurd (List.reverse_eq_nil_iff.mp hx) hE
  | cons a as =>
    have hr : (a :: as).reverse = xs := by rw [← hx, List.reverse_reverse]
    simp [splitChars, hr]

theorem splitChars_line_cons (p : Char → Bool) (xs rest : List Char) (c : Char)
    (hc : p c = true) (hE : xs ≠ []) (hN : ∀ x ∈ xs, p x = false) :
    splitChars p (xs ++ c :: rest) [] = xs :: splitChars p rest [] := by
  rw [splitChars_append_nonsep p xs (c :: rest) [] hN,
    splitChars_sep_cons p c rest (xs.reverse ++ []) hc
      (by simp [List.reverse_eq_nil_iff, hE])]
  simp

theorem lineList_four (b l1 l2 l3 : String)
    (hbE : b.data ≠ []) (hbN : ∀ c ∈ b.data, isNewlineChar c = false)
    (h1E : l1.data ≠ []) (h1N : ∀ c ∈ l1.data, isNewlineChar c = false)
    (h2E : l2.data ≠ []) (h2N : ∀ c ∈ l2.data, isNewlineChar c = false)
    (h3E : l3.data ≠ []) (h3N : ∀ c ∈ l3.data, isNewlineChar c = false) :
    lineList (b ++ "\n" ++ l1 ++ "\n" ++ l2 ++ "\n" ++ l3) = [b, l1, l2, l3] := by
  unfold lineList
  have hn : ("\n" : String).data = ['\n'] := rfl
  have ht : (b ++ "\n" ++ l1 ++ "\n" ++ l2 ++ "\n" ++ l3).toList
      = b.data ++ '\n' :: (l1.data ++ '\n' :: (l2.data ++ '\n' :: l3.data)) := by
    show (b ++ "\n" ++ l1 ++ "\n" ++ l2 ++ "\n" ++ l3).data = _
    simp [String.data_append, hn, List.append_assoc]
  have hnl : isNewlineChar '\n' = true := rfl
  rw [ht, splitChars_line_cons _ _ _ _ hnl hbE hbN,
    splitChars_line_cons _ _ _ _ hnl h1E h1N,
    splitChars_line_cons _ _ _ _ hnl h2E h2N,
    splitChars_last _ _ h3E h3N]
  simp [mk_data]

theorem directiveLines_eq_map (ds : List PbsDirective) :
    directiveLines ds = List.map renderDirective ds := by
  induction ds with
  | nil => rfl
  | cons d ds ih => simp [directiveLines, ih]

theorem moduleLines_eq_map (ops : List ModuleOperation) :
    moduleLines ops = List.map renderModuleOp ops := by
  induction ops with
  | nil => rfl
  | cons op ops ih => simp [moduleLines, ih]

theorem tokenFileYaml_keys (store : TokenStore) :
    List.map Prod.fst (tokenFileYaml store) =
      List.map TokenRecord.system_id store := by
  unfold tokenFileYaml
  rw [List.map_map]
  rfl

/-! ## Claim theorems -/

/-- C1: configuration resolution checks constructor argument, then
environment variable, then configuration-file field, independently per
field; with constructor arg A, env var B and config-file value C the
resolved value is A; without the constructor arg it is B; with neither it
is C. -/
theorem claim_C1_config_resolution_priority :
    (∀ a e f, resolveField (some a) e f = some a) ∧
    (∀ b f, resolveField none (some b) f = some b) ∧
    (∀ f, resolveField none none f = f) ∧
    (∀ s : ConfigSources,
      (resolveConfig s).client_id =
        resolveField s.client_id.ctorArg s.client_id.envVar s.client_id.fileField ∧
      (resolveConfig s).client_secret =
        resolveField s.client_secret.ctorArg s.client_secret.envVar s.client_secret.fileField ∧
      (resolveConfig s).ca_file =
        resolveField s.ca_file.ctorArg s.ca_file.envVar s.ca_file.fileField ∧
      (resolveConfig s).node_types_file =
        resolveField s.node_types_file.ctorArg s.node_types_file.envVar s.node_types_file.fileField ∧
      (resolveConfig s).config_file =
        resolveField s.config_file.ctorArg s.config_file.envVar s.config_file.fileField) ∧
    resolveField (some "A") (some "B") (some "C") = some "A" ∧
    resolveField none (some "B") (some "C") = some "B" ∧
    resolveField none none (some "C") = some "C" := by
  refine ⟨fun a e f => rfl, fun b f => rfl, fun f => rfl,
    fun s => ⟨rfl, rfl, rfl, rfl, rfl⟩, rfl, rfl, rfl⟩

/-- C2: authenticate returns an existing valid non-expired record with
no remote interaction, and the authorization-code flow produces remote
effects exactly when no valid record exists in the store. -/
theorem claim_C2_authenticate_fast_path (now : Int) (sysId : String)
    (store : TokenStore) (flowRecord : TokenRecord) :
    (∀ r, load sysId store = some r → validRecord now r = true →
      authenticate now sysId store flowRecord = (r, store, [])) ∧
    ((authenticate now sysId store flowRecord).2.2 = [] ↔
      ∃ r, load sysId store = some r ∧ validRecord now r = true) := by
  constructor
  · intro r hload hvalid
    unfold authenticate
    rw [hload]
    simp [hvalid]
  · unfold authenticate
    cases hload : load sysId store with
    | none => simp
    | some r =>
      by_cases hvalid : validRecord now r = true
      · simp [hvalid]
      · simp [hvalid]

/-- Witness for C2 at a concrete store with a cached valid record. -/
theorem claim_C2_witness :
    authenticate 100 "onyx" [onyxRecord] freshRecord = (onyxRecord, [onyxRecord], []) :=
  (claim_C2_authenticate_fast_path 100 "onyx" [onyxRecord] freshRecord).1
    onyxRecord (by rfl) (by decide)

/-- C3: refresh_if_needed compares the current time to the expiry: a
record that is expired, and more generally any record expired or within
the safety margin of expiring, is refreshed via a refresh-token
exchange; a record whose expiry is beyond the safety margin is returned
unchanged with no remote contact. -/
theorem claim_C3_refresh_if_needed (now : Int) (r refreshedRecord : TokenRecord) :
    (r.expiry_timestamp ≤ now →
      refresh_if_needed now r refreshedRecord =
        (refreshedRecord, [AuthEffect.refreshExchange])) ∧
    (r.expiry_timestamp ≤ now + refreshMargin →
      refresh_if_needed now r refreshedRecord =
        (refreshedRecord, [AuthEffect.refreshExchange])) ∧
    (now + refreshMargin < r.expiry_timestamp →
      refresh_if_needed now r refreshedRecord = (r, [])) := by
  refine ⟨?_, ?_, ?_⟩
  · intro h
    unfold refresh_if_needed
    have hm : r.expiry_timestamp ≤ now + refreshMargin := by
      unfold refreshMargin; omega
    simp [hm]
  · intro hm
    unfold refresh_if_needed
    simp [hm]
  · intro h
    unfold refresh_if_needed
    have hm : ¬ r.expiry_timestamp ≤ now + refreshMargin := by omega
    simp [hm]

/-- Witness for C3 at concrete times: an expired record is refreshed, a
record within the safety margin but not yet expired is refreshed, and a
far-future record is returned unchanged. -/
theorem claim_C3_witness :
    refresh_if_needed 2000 onyxRecord freshRecord =
      (freshRecord, [AuthEffect.refreshExchange]) ∧
    refresh_if_needed 990 onyxRecord freshRecord =
      (freshRecord, [AuthEffect.refreshExchange]) ∧
    refresh_if_needed 100 freshRecord onyxRecord = (freshRecord, []) :=
  ⟨(claim_C3_refresh_if_needed 2000 onyxRecord freshRecord).1 (by decide),
   (claim_C3_refresh_if_needed 990 onyxRecord freshRecord).2.1 (by decide),
   (claim_C3_refresh_if_needed 100 freshRecord onyxRecord).2.2 (by decide)⟩

/-- C4: after save the store contains exactly one record for the written
system_id, holding the most recently written values, and load returns a
record equal to the one saved. -/
theorem claim_C4_save_replace_by_key (record : TokenRecord) (store : TokenStore) :
    recordsFor record.system_id (save record store) = [record] ∧
    load record.system_id (save record store) = some record :=
  ⟨recordsFor_save_self record store, load_save_self record store⟩

/-- C5: for every input text made of one header banner line (one that
does not match the expected column structure), two well-formed
job-status lines and one malformed line (one with a non-numeric token in
the numeric column, flagged per-row as unparsable), the parse never
fails: the banner is skipped, the malformed row is flagged, and the
result holds exactly the two well-formed ParsedRows, in order. -/
theorem claim_C5_parse_tolerates_bad_lines
    (banner good1 good2 bad : String) (row1 row2 : ParsedRow)
    (hbE : banner.data ≠ []) (hbN : ∀ c ∈ banner.data, isNewlineChar c = false)
    (h1E : good1.data ≠ []) (h1N : ∀ c ∈ good1.data, isNewlineChar c = false)
    (h2E : good2.data ≠ []) (h2N : ∀ c ∈ good2.data, isNewlineChar c = false)
    (h3E : bad.data ≠ []) (h3N : ∀ c ∈ bad.data, isNewlineChar c = false)
    (hskip : parseLine jobStatusColumns banner = none)
    (hrow1 : parseLine jobStatusColumns good1 = some (Except.ok row1))
    (hrow2 : parseLine jobStatusColumns good2 = some (Except.ok row2))
    (hbad : parseLine jobStatusColumns bad = some (Except.error bad)) :
    parseOutput jobStatusColumns (banner ++ "\n" ++ good1 ++ "\n" ++ good2 ++ "\n" ++ bad)
      = [Except.ok row1, Except.ok row2, Except.error bad] ∧
    parsedRows jobStatusColumns (banner ++ "\n" ++ good1 ++ "\n" ++ good2 ++ "\n" ++ bad)
      = [row1, row2] := by
  have hout : parseOutput jobStatusColumns
      (banner ++ "\n" ++ good1 ++ "\n" ++ good2 ++ "\n" ++ bad)
      = [Except.ok row1, Except.ok row2, Except.error bad] := by
    unfold parseOutput
    rw [lineList_four banner good1 good2 bad hbE hbN h1E h1N h2E h2N h3E h3N]
    simp [List.filterMap_cons, hskip, hrow1, hrow2, hbad]
  refine ⟨hout, ?_⟩
  unfold parsedRows
  rw [hout]
  rfl

/-- Witness for C5 at the concrete banner, two well-formed job-status
lines and one malformed line. -/
theorem claim_C5_witness :
    parseOutput jobStatusColumns
        (bannerLine ++ "\n" ++ goodLine1 ++ "\n" ++ goodLine2 ++ "\n" ++ badLine)
      = [Except.ok sampleRow1, Except.ok sampleRow2, Except.error badLine] ∧
    parsedRows jobStatusColumns
        (bannerLine ++ "\n" ++ goodLine1 ++ "\n" ++ goodLine2 ++ "\n" ++ badLine)
      = [sampleRow1, sampleRow2] :=
  claim_C5_parse_tolerates_bad_lines bannerLine goodLine1 goodLine2 badLine
    sampleRow1 sampleRow2
    (by decide) (by decide) (by decide) (by decide)
    (by decide) (by decide) (by decide) (by decide)
    rfl rfl rfl rfl

/-- C6: render is deterministic: two scripts with identical field values
render to identical output. -/
theorem claim_C6_render_deterministic (s t : PbsScript)
    (h1 : s.name = t.name) (h2 : s.project_id = t.project_id)
    (h3 : s.num_nodes = t.num_nodes)
    (h4 : s.processes_per_node = t.processes_per_node)
    (h5 : s.node_type = t.node_type) (h6 : s.max_time = t.max_time)
    (h7 : s.queue = t.queue) (h8 : s.directives = t.directives)
    (h9 : s.module_ops = t.module_ops)
    (h10 : s.execution_block = t.execution_block) :
    render s = render t := by
  cases s
  cases t
  simp only at h1 h2 h3 h4 h5 h6 h7 h8 h9 h10
  subst h1 h2 h3 h4 h5 h6 h7 h8 h9 h10
  rfl

/-- Witness for C6 at a concrete pair of distinct script terms with
identical field values. -/
theorem claim_C6_witness :
    render (set_num_nodes baseScript 1) = render baseScript :=
  claim_C6_render_deterministic (set_num_nodes baseScript 1) baseScript
    rfl rfl rfl rfl rfl rfl rfl rfl rfl rfl

/-- C7: render preserves insertion order: directives appear in insertion
order, module operations in insertion order, each rendered as one shell
command per variant; loading anaconda then swapping IntelMPI for OpenMPI
renders those two lines in that exact order. -/
theorem claim_C7_order_preserved (s : PbsScript) :
    renderLines s =
      headerLines s ++ List.map renderDirective s.directives ++
        List.map renderModuleOp s.module_ops ++ [s.execution_block] ∧
    renderModuleOp (ModuleOperation.load "anaconda") = "module load anaconda" ∧
    renderModuleOp (ModuleOperation.unload "C++") = "module unload C++" ∧
    renderModuleOp (ModuleOperation.swap "IntelMPI" "OpenMPI") =
      "module swap IntelMPI OpenMPI" ∧
    renderLines demoScript =
      headerLines demoScript ++
        ["module load anaconda", "module swap IntelMPI OpenMPI",
         "echo Hello World!"] := by
  refine ⟨?_, rfl, rfl, rfl, rfl⟩
  unfold renderLines
  rw [directiveLines_eq_map, moduleLines_eq_map]

/-- C8: validation happens only at render time: render fails with a
ValidationError exactly when num_nodes or processes_per_node is not
positive or max_time is negative, and field assignment always succeeds,
storing any value, valid or not. -/
theorem claim_C8_validation_at_render_time (s : PbsScript) (n m t : Int) :
    ((∃ e, render s = Except.error e) ↔
      (s.num_nodes ≤ 0 ∨ s.processes_per_node ≤ 0 ∨ s.max_time < 0)) ∧
    (set_num_nodes s n).num_nodes = n ∧
    (set_processes_per_node s m).processes_per_node = m ∧
    (set_max_time s t).max_time = t := by
  refine ⟨?_, rfl, rfl, rfl⟩
  unfold render
  by_cases h1 : s.num_nodes ≤ 0
  · simp [h1]
  · by_cases h2 : s.processes_per_node ≤ 0
    · simp [h1, h2]
    · by_cases h3 : s.max_time < 0
      · simp [h1, h2, h3]
      · simp [h1, h2, h3]

/-- C9: the persisted token file is a mapping keyed by system
identifier, each value holding access_token, refresh_token and expiry,
and its path defaults to the home-directory .uit file, overridable via
environment variable or explicit path argument. -/
theorem claim_C9_token_file_shape (store : TokenStore) (r : TokenRecord)
    (p q : String) :
    List.map Prod.fst (tokenFileYaml store) =
      List.map TokenRecord.system_id store ∧
    (tokenFileEntry r).1 = r.system_id ∧
    List.map Prod.fst (tokenFileEntry r).2 =
      ["access_token", "refresh_token", "expiry"] ∧
    tokenFilePath none none = "~/.uit" ∧
    tokenFilePath (some p) (some q) = p ∧
    tokenFilePath (some p) none = p ∧
    tokenFilePath none (some q) = q :=
  ⟨tokenFileYaml_keys store, rfl, rfl, rfl, rfl, rfl, rfl⟩

/-- C10: the OAuth return URL is exactly the localhost save_token URL on
port 5000, the callback listener binds port 5000, and the URI and port
are the same on every run. -/
theorem claim_C10_fixed_redirect_uri (r1 r2 : Nat) :
    redirectUri = "http://localhost:5000/save_token" ∧
    callbackPort = 5000 ∧
    listenerBindPort r1 = 5000 ∧
    redirectUriOnRun r1 = redirectUriOnRun r2 ∧
    listenerBindPort r1 = listenerBindPort r2 :=
  ⟨rfl, rfl, rfl, rfl, rfl⟩

end PyUIT
